import Mathlib

/-!
Verification of the `scenario` library (TypeScript): the `Option` class
(src/src/option/index.ts) and the `Result` class (src/src/result/index.ts).

JavaScript runtime values are embedded as an inductive type `JSVal` with the
two distinct nullish forms (`null` and `undefined`), the falsy primitives, and
flat composites (arrays).  The classes are embedded as structures whose fields
mirror the TypeScript instance fields, and each method is a Lean function
translated line by line from the source.  `structuredClone` of an immutable
structural value is the identity in this pure fragment; a separate store-based
fragment (`HVal`, `Store`, `OptionH`, `ResultH`) models composite payloads as
mutable references so that the defensive-copy behaviour of the read accessors
is observable.
-/

namespace Scenario

/-- A JavaScript primitive value (for the fields of flat composites). -/
inductive JSPrim where
  | pNull
  | pUndefined
  | pNum (n : Int)
  | pStr (s : String)
  | pBool (b : Bool)
  deriving DecidableEq, Repr

/-- A JavaScript runtime value: the two nullish sentinels, the primitive
kinds used by the library and its tests, and flat composite values
(arrays of primitives — enough to observe the library's treatment of
containers). -/
inductive JSVal where
  | vNull
  | vUndefined
  | vNum (n : Int)
  | vStr (s : String)
  | vBool (b : Bool)
  | vArr (elems : List JSPrim)
  deriving DecidableEq, Repr

/-- `v == null || v == undefined` — the JS nullish test (also what `??`
branches on). -/
def JSVal.isNullish : JSVal → Bool
  | .vNull => true
  | .vUndefined => true
  | _ => false

/-- `v === null`. -/
def JSVal.isNullV : JSVal → Bool
  | .vNull => true
  | _ => false

/-- `v === undefined`. -/
def JSVal.isUndefinedV : JSVal → Bool
  | .vUndefined => true
  | _ => false

/-- The JS nullish-coalescing operator `a ?? b`. -/
def nullishCoalesce (a b : JSVal) : JSVal :=
  if a.isNullish then b else a

/-- An opaque thrown JS error (the library never inspects a caught value). -/
inductive JSErr where
  | mk
  deriving DecidableEq, Repr

/-- The `Option` class: a single private field `currentValue`. -/
structure Option where
  currentValue : JSVal
  deriving DecidableEq, Repr

namespace Option

/-- The private constructor `new Option(value?)`:
`this.currentValue = value ?? null`.  A missing argument reads as
`undefined`, so `new Option()` is `Option.new JSVal.vUndefined`. -/
def new (value : JSVal) : Option :=
  ⟨nullishCoalesce value JSVal.vNull⟩

/-- `cloneValue(): structuredClone(this.currentValue)` — in the pure
fragment a structural value is immutable, so the deep clone is the value
itself. -/
def cloneValue (o : Option) : JSVal :=
  o.currentValue

/-- `Option.some(value)`: `new Option(value)`. -/
def some (value : JSVal) : Option :=
  Option.new value

/-- `Option.none()`: `new Option()`. -/
def none : Option :=
  Option.new JSVal.vUndefined

/-- `Option.from(value)`: `null`/`undefined` give `new Option()`, any other
value gives `new Option(value)`.  (`from` is a Lean keyword, hence the
name `fromVal`.) -/
def fromVal (value : JSVal) : Option :=
  if value.isNullish then Option.new JSVal.vUndefined else Option.new value

/-- `Option.fromError(throwable)`: `try { return Option.some(throwable()) }
catch { return Option.none() }`.  The throwable thunk is embedded by its
outcome: `Except.ok v` when it returns `v`, `Except.error e` when it
throws. -/
def fromError (throwable : Except JSErr JSVal) : Option :=
  match throwable with
  | .ok v => Option.some v
  | .error _ => Option.none

/-- `isSome(): this.currentValue !== null`. -/
def isSome (o : Option) : Bool :=
  !o.currentValue.isNullV

/-- `isNone(): this.currentValue === null`. -/
def isNone (o : Option) : Bool :=
  o.currentValue.isNullV

/-- `map(mapper)`: `this.isSome() ? Option.some(mapper(this.cloneValue()))
: Option.none()`. -/
def map (o : Option) (mapper : JSVal → JSVal) : Option :=
  if o.isSome then Option.some (mapper o.cloneValue) else Option.none

/-- `recover(recoverWith)`: `this.isSome() ? this :
Option.some(recoverWith())`. -/
def recover (o : Option) (recoverWith : Unit → JSVal) : Option :=
  if o.isSome then o else Option.some (recoverWith ())

/-- `validate(validator)`: None unchanged; a Some is kept when the
validator accepts the (cloned) value, otherwise a None is returned. -/
def validate (o : Option) (validator : JSVal → Bool) : Option :=
  if o.isNone then o
  else if validator o.cloneValue then o
  else Option.none

/-- `valueOr(fallback)`: `this.isSome() ? this.cloneValue() : fallback`. -/
def valueOr (o : Option) (fallback : JSVal) : JSVal :=
  if o.isSome then o.cloneValue else fallback

/-- `valueOrCompute(computeFallback)`: the fallback is computed lazily. -/
def valueOrCompute (o : Option) (computeFallback : Unit → JSVal) : JSVal :=
  if o.isSome then o.cloneValue else computeFallback ()

/-- `valueOrUndefined()`: `this.isSome() ? this.cloneValue() : undefined`. -/
def valueOrUndefined (o : Option) : JSVal :=
  if o.isSome then o.cloneValue else JSVal.vUndefined

end Option

/-- The `Result` class (single-class design, src/src/result/index.ts): two
declared fields `successValue` and `failureValue`; the constructor sets
only the field selected by the `isSuccess` flag of its params, so the
other field is left unset and reads as `undefined`. -/
structure Result where
  successValue : JSVal
  failureValue : JSVal
  deriving DecidableEq, Repr

namespace Result

/-- `Result.success(value)`: `new Result({ isSuccess: true, successValue:
value })` — `failureValue` stays unset (`undefined`). -/
def success (value : JSVal) : Result :=
  ⟨value, JSVal.vUndefined⟩

/-- `Result.failure(value)`: `new Result({ isSuccess: false, failureValue:
value })` — `successValue` stays unset (`undefined`). -/
def failure (value : JSVal) : Result :=
  ⟨JSVal.vUndefined, value⟩

/-- `isSuccess(): this.successValue !== undefined`. -/
def isSuccess (r : Result) : Bool :=
  !r.successValue.isUndefinedV

/-- `isFailure(): !this.isSuccess()`. -/
def isFailure (r : Result) : Bool :=
  !r.isSuccess

/-- `map(mapper)`: on a Success,
`Result.success(mapper(structuredClone(this.successValue)))`; otherwise
`Result.failure(this.failureValue)`. -/
def map (r : Result) (mapper : JSVal → JSVal) : Result :=
  if r.isSuccess then Result.success (mapper r.successValue)
  else Result.failure r.failureValue

/-- `mapFailure(mapper)`: on a Failure,
`Result.failure(mapper(structuredClone(this.failureValue)))`; otherwise
`Result.success(this.successValue)`. -/
def mapFailure (r : Result) (mapper : JSVal → JSVal) : Result :=
  if r.isFailure then Result.failure (mapper r.failureValue)
  else Result.success r.successValue

/-- `recover(recoverer)`: a Success is returned as is; a Failure becomes
`Result.success(recoverer(structuredClone(this.failureValue)))`. -/
def recover (r : Result) (recoverer : JSVal → JSVal) : Result :=
  if r.isSuccess then r else Result.success (recoverer r.failureValue)

/-- `value()`: `this.isSuccess() ? this.successValue : this.failureValue`
(no clone in the source). -/
def value (r : Result) : JSVal :=
  if r.isSuccess then r.successValue else r.failureValue

/-- `valueOr(value)`: `this.isSuccess() ? this.successValue : value`
(no clone in the source). -/
def valueOr (r : Result) (fallback : JSVal) : JSVal :=
  if r.isSuccess then r.successValue else fallback

/-- `valueOrCompute(fn)`: `this.isSuccess() ? this.successValue : fn()`
(no clone in the source). -/
def valueOrCompute (r : Result) (fn : Unit → JSVal) : JSVal :=
  if r.isSuccess then r.successValue else fn ()

/-- Modelled from the spec: `Result.validate(predicate,
failureValueIfInvalid)` is not implemented under src (only its test,
`should allow validating the success value to continue as a Success`,
exists).  Per the spec: on a Failure, unchanged; on a Success, unchanged
when the predicate accepts the (cloned) success payload, otherwise it
becomes `Failure(failureValueIfInvalid)`. -/
def validate (r : Result) (predicate : JSVal → Bool)
    (failureValueIfInvalid : JSVal) : Result :=
  if r.isFailure then r
  else if predicate r.successValue then r
  else Result.failure failureValueIfInvalid

end Result

/-- Is `JSVal.vNum n` with `0 < n`?  The concrete predicate
`v => v > 0` used by the validation examples. -/
def isPositiveNum : JSVal → Bool
  | .vNum n => decide (0 < n)
  | _ => false

/-!
Store-based fragment: JS composite values are references into a mutable
store, so that aliasing between the value a read accessor returns and the
value an instance holds internally is observable.  Each store object is a
flat record of primitives, for which a one-level copy and a deep copy
coincide (which is all `structuredClone` fidelity requires here).
-/

/-- A store of composite objects: `mem` maps an address to the object's
fields and every address at or above `next` is unallocated. -/
structure Store where
  mem : Nat → List JSPrim
  next : Nat

/-- Read the object at address `a`. -/
def Store.read (s : Store) (a : Nat) : List JSPrim :=
  s.mem a

/-- Mutate the object at address `a` in place. -/
def Store.write (s : Store) (a : Nat) (o : List JSPrim) : Store :=
  ⟨fun b => if b = a then o else s.mem b, s.next⟩

/-- Allocate a fresh object with fields `o` at address `next`. -/
def Store.alloc (s : Store) (o : List JSPrim) : Store :=
  ⟨fun b => if b = s.next then o else s.mem b, s.next + 1⟩

/-- A JS value as held at run time: a primitive, or a reference to a
composite object in the store. -/
inductive HVal where
  | prim (v : JSVal)
  | ref (a : Nat)
  deriving DecidableEq, Repr

/-- `v === null` on run-time values (a reference is never `null`). -/
def HVal.isNullVH : HVal → Bool
  | .prim v => v.isNullV
  | .ref _ => false

/-- `v === undefined` on run-time values. -/
def HVal.isUndefH : HVal → Bool
  | .prim v => v.isUndefinedV
  | .ref _ => false

/-- `structuredClone(v)`: a primitive is returned as is; a composite is
deep-copied into a freshly allocated object. -/
def structuredCloneH : HVal → Store → HVal × Store
  | .ref a, s => (.ref s.next, s.alloc (s.read a))
  | .prim v, s => (.prim v, s)

/-- Observe a run-time value through the store: dereference a composite
down to its fields (a primitive observes as a singleton). -/
def observe : HVal → Store → List JSPrim
  | .ref a, s => s.read a
  | .prim .vNull, _ => [.pNull]
  | .prim .vUndefined, _ => [.pUndefined]
  | .prim (.vNum n), _ => [.pNum n]
  | .prim (.vStr t), _ => [.pStr t]
  | .prim (.vBool b), _ => [.pBool b]
  | .prim (.vArr l), _ => l

/-- The `Option` class over run-time values, store passed explicitly:
only the field and the read accessors, which is what the defensive-copy
contract is about. -/
structure OptionH where
  currentValue : HVal

namespace OptionH

/-- `isSome(): this.currentValue !== null`. -/
def isSome (o : OptionH) : Bool :=
  !o.currentValue.isNullVH

/-- `cloneValue(): structuredClone(this.currentValue)`. -/
def cloneValue (o : OptionH) (s : Store) : HVal × Store :=
  structuredCloneH o.currentValue s

/-- `valueOr(fallback)`: `this.isSome() ? this.cloneValue() : fallback`. -/
def valueOr (o : OptionH) (fallback : HVal) (s : Store) : HVal × Store :=
  if o.isSome then o.cloneValue s else (fallback, s)

/-- `valueOrCompute(computeFallback)`. -/
def valueOrCompute (o : OptionH) (computeFallback : Unit → HVal) (s : Store) :
    HVal × Store :=
  if o.isSome then o.cloneValue s else (computeFallback (), s)

/-- `valueOrUndefined()`. -/
def valueOrUndefined (o : OptionH) (s : Store) : HVal × Store :=
  if o.isSome then o.cloneValue s else (.prim .vUndefined, s)

end OptionH

/-- The `Result` class over run-time values: the two payload fields and
the read accessors, which perform no clone in the source. -/
structure ResultH where
  successValue : HVal
  failureValue : HVal

namespace ResultH

/-- `Result.success(value)` at run time. -/
def success (value : HVal) : ResultH :=
  ⟨value, .prim .vUndefined⟩

/-- `isSuccess(): this.successValue !== undefined`. -/
def isSuccess (r : ResultH) : Bool :=
  !r.successValue.isUndefH

/-- `value()`: the stored payload itself, no clone. -/
def value (r : ResultH) (s : Store) : HVal × Store :=
  (if r.isSuccess then r.successValue else r.failureValue, s)

/-- `valueOr(value)`: the stored payload itself, no clone. -/
def valueOr (r : ResultH) (fallback : HVal) (s : Store) : HVal × Store :=
  (if r.isSuccess then r.successValue else fallback, s)

/-- `valueOrCompute(fn)`: the stored payload itself, no clone. -/
def valueOrCompute (r : ResultH) (fn : Unit → HVal) (s : Store) :
    HVal × Store :=
  (if r.isSuccess then r.successValue else fn (), s)

end ResultH

/-- A concrete store holding one composite object `[1]` at address 0. -/
def exampleStore : Store :=
  (Store.mk (fun _ => []) 0).alloc [JSPrim.pNum 1]

end Scenario

/-- A value that is not nullish is in particular not `null`. -/
theorem isNullV_eq_false_of_not_nullish (v : Scenario.JSVal)
    (h : v.isNullish = false) : v.isNullV = false := by
  cases v <;> simp_all [Scenario.JSVal.isNullish, Scenario.JSVal.isNullV]

/-- C1: `Option.from(v)` is Absent exactly when `v` is `null` or
`undefined`; all other values, among them the falsy primitives `0`, the
empty string and `false` and the empty container, give a Present
option. -/
theorem c1_from_absent_iff_sentinel (v : Scenario.JSVal) :
    ((Scenario.Option.fromVal v).isNone = true
        ↔ (v = Scenario.JSVal.vNull ∨ v = Scenario.JSVal.vUndefined))
    ∧ (Scenario.Option.fromVal (Scenario.JSVal.vNum 0)).isSome = true
    ∧ (Scenario.Option.fromVal (Scenario.JSVal.vStr "")).isSome = true
    ∧ (Scenario.Option.fromVal (Scenario.JSVal.vBool false)).isSome = true
    ∧ (Scenario.Option.fromVal (Scenario.JSVal.vArr [])).isSome = true := by
  refine ⟨?_, by decide, by decide, by decide, by decide⟩
  cases v <;>
    simp [Scenario.Option.fromVal, Scenario.Option.new, Scenario.Option.isNone,
      Scenario.nullishCoalesce, Scenario.JSVal.isNullish, Scenario.JSVal.isNullV]

/-- C2, counterexample: the claim says `Option.some(null)` is Present;
in the source the private constructor normalizes its argument with
`value ?? null`, so `Option.some(null)` and `Option.some(undefined)` are
absent (`isSome()` is `false`). -/
theorem c2_counterexample :
    (Scenario.Option.some Scenario.JSVal.vNull).isSome = false
    ∧ (Scenario.Option.some Scenario.JSVal.vUndefined).isSome = false := by
  decide

/-- C2, amended: `Option.some(v)` is Present and wraps `v` verbatim for
every non-nullish `v`; for `null` or `undefined` the constructor
normalizes the argument away and the result is Absent. -/
theorem c2_some_nullish_normalized (v fb : Scenario.JSVal) :
    ((Scenario.Option.some v).isSome = !v.isNullish)
    ∧ (v.isNullish = false → (Scenario.Option.some v).valueOr fb = v) := by
  constructor
  · cases v <;>
      simp [Scenario.Option.some, Scenario.Option.new, Scenario.nullishCoalesce,
        Scenario.Option.isSome, Scenario.JSVal.isNullish, Scenario.JSVal.isNullV]
  · intro h
    cases v <;> simp_all [Scenario.Option.some, Scenario.Option.new,
      Scenario.nullishCoalesce, Scenario.Option.valueOr, Scenario.Option.isSome,
      Scenario.Option.cloneValue, Scenario.JSVal.isNullish, Scenario.JSVal.isNullV]

/-- C2, witness: apply the amended theorem at `v = 0`, `fb = 9`. -/
theorem c2_witness :
    (Scenario.JSVal.vNum 0).isNullish = false
    ∧ (Scenario.Option.some (Scenario.JSVal.vNum 0)).valueOr
        (Scenario.JSVal.vNum 9) = Scenario.JSVal.vNum 0 :=
  ⟨by decide,
   (c2_some_nullish_normalized (Scenario.JSVal.vNum 0) (Scenario.JSVal.vNum 9)).2
     (by decide)⟩

/-- C3: divergence of the code from the claimed state machine.
`Result.success(0)` is classified Success, yet mapping it with a mapper
that returns `undefined` yields an instance classified Failure, because
`isSuccess()` tests `successValue !== undefined` instead of the
discriminant the constructor was given — `map` does transition
Success→Failure here, against the claim and against the source's own
leading comment. -/
theorem c3_map_undefined_flips_success :
    (Scenario.Result.success (Scenario.JSVal.vNum 0)).isSuccess = true
    ∧ ((Scenario.Result.success (Scenario.JSVal.vNum 0)).map
        (fun _ => Scenario.JSVal.vUndefined)).isFailure = true := by
  decide

/-- C4: divergence of the code from the claim at payload `undefined`.
The claim (and the source's leading comment) wants
`Result.success(undefined)` classified Success; the code classifies it
Failure because `isSuccess()` compares the payload against `undefined`.
With payload `null` the classification is Success as claimed. -/
theorem c4_success_undefined_misclassified :
    (Scenario.Result.success Scenario.JSVal.vUndefined).isSuccess = false
    ∧ (Scenario.Result.success Scenario.JSVal.vUndefined).isFailure = true
    ∧ (Scenario.Result.success Scenario.JSVal.vNull).isSuccess = true := by
  decide

/-- C5, counterexample: `Result.valueOr` on a Success holding a composite
returns the internally held reference itself (no clone), so mutating the
object obtained from it and re-extracting no longer yields the original
value `[1]` but the mutated `[99]`. -/
theorem c5_counterexample :
    ((Scenario.ResultH.success (Scenario.HVal.ref 0)).valueOr
        (Scenario.HVal.prim (Scenario.JSVal.vNum 0)) Scenario.exampleStore).1
      = Scenario.HVal.ref 0
    ∧ Scenario.observe
        (((Scenario.ResultH.success (Scenario.HVal.ref 0)).valueOr
            (Scenario.HVal.prim (Scenario.JSVal.vNum 0))
            Scenario.exampleStore).1)
        Scenario.exampleStore = [Scenario.JSPrim.pNum 1]
    ∧ Scenario.observe
        (((Scenario.ResultH.success (Scenario.HVal.ref 0)).valueOr
            (Scenario.HVal.prim (Scenario.JSVal.vNum 0))
            (Scenario.exampleStore.write 0 [Scenario.JSPrim.pNum 99])).1)
        (Scenario.exampleStore.write 0 [Scenario.JSPrim.pNum 99])
      ≠ [Scenario.JSPrim.pNum 1] := by
  refine ⟨rfl, rfl, ?_⟩
  decide

/-- C5, amended: `Option`'s wrapped-value accessors (`valueOr`,
`valueOrCompute`, `valueOrUndefined`) return a structural deep copy — a
freshly allocated reference — so writing through the returned value
leaves the internally held object unchanged; `Result`'s `value`,
`valueOr` and `valueOrCompute` return the internally held reference with
no copy, so a mutation through the returned value is visible on
re-extraction. -/
theorem c5_accessor_copy_semantics (s : Scenario.Store) (a : Nat)
    (fb : Scenario.HVal) (newObj : List Scenario.JSPrim)
    (ha : a < s.next) :
    ((Scenario.OptionH.mk (Scenario.HVal.ref a)).valueOr fb s).1
        = Scenario.HVal.ref s.next
    ∧ ((((Scenario.OptionH.mk (Scenario.HVal.ref a)).valueOr fb s).2).write
          s.next newObj).read a = s.read a
    ∧ ((Scenario.OptionH.mk (Scenario.HVal.ref a)).valueOrUndefined s).1
        = Scenario.HVal.ref s.next
    ∧ ((Scenario.OptionH.mk (Scenario.HVal.ref a)).valueOrCompute
          (fun _ => fb) s).1 = Scenario.HVal.ref s.next
    ∧ ((Scenario.ResultH.success (Scenario.HVal.ref a)).valueOr fb s).1
        = Scenario.HVal.ref a
    ∧ ((Scenario.ResultH.success (Scenario.HVal.ref a)).value s).1
        = Scenario.HVal.ref a
    ∧ ((Scenario.ResultH.success (Scenario.HVal.ref a)).valueOrCompute
          (fun _ => fb) s).1 = Scenario.HVal.ref a
    ∧ Scenario.observe
        (((Scenario.ResultH.success (Scenario.HVal.ref a)).valueOr fb
            (s.write a newObj)).1) (s.write a newObj) = newObj := by
  have hne : a ≠ s.next := Nat.ne_of_lt ha
  refine ⟨rfl, ?_, rfl, rfl, rfl, rfl, rfl, ?_⟩
  · simp [Scenario.OptionH.valueOr, Scenario.OptionH.isSome,
      Scenario.OptionH.cloneValue, Scenario.HVal.isNullVH,
      Scenario.structuredCloneH, Scenario.Store.alloc, Scenario.Store.write,
      Scenario.Store.read, hne]
  · simp [Scenario.ResultH.valueOr, Scenario.ResultH.isSuccess,
      Scenario.ResultH.success, Scenario.HVal.isUndefH, Scenario.JSVal.isUndefinedV,
      Scenario.observe, Scenario.Store.write, Scenario.Store.read]

/-- C5, witness: apply the amended theorem on the concrete one-object
store at address 0. -/
theorem c5_witness :
    0 < Scenario.exampleStore.next
    ∧ ((Scenario.OptionH.mk (Scenario.HVal.ref 0)).valueOr
          (Scenario.HVal.prim (Scenario.JSVal.vNum 0))
          Scenario.exampleStore).1
        = Scenario.HVal.ref Scenario.exampleStore.next :=
  ⟨by decide,
   (c5_accessor_copy_semantics Scenario.exampleStore 0
      (Scenario.HVal.prim (Scenario.JSVal.vNum 0)) [] (by decide)).1⟩

/-- C6, counterexample: with `x = 0`, `f = const null`, `d = 5`, the
claimed identity `Option.some(x).map(f).valueOr(d) == f(x)` fails: the
constructor normalizes the nullish mapper result to absence and the
fallback `5` is returned instead of `null`. -/
theorem c6_counterexample :
    ¬ (((Scenario.Option.some (Scenario.JSVal.vNum 0)).map
          (fun _ => Scenario.JSVal.vNull)).valueOr (Scenario.JSVal.vNum 5)
        = (fun _ => Scenario.JSVal.vNull) (Scenario.JSVal.vNum 0)) := by
  decide

/-- C6, amended: for non-nullish `x` with `f(x)` non-nullish,
`Option.some(x).map(f).valueOr(d) = f(x)`; on the Absent path
`Option.none().map(f).valueOr(d) = d` and `map` is a mapper-independent
no-op (the mapper is only applied in the Present branch). -/
theorem c6_map_valueOr (x d : Scenario.JSVal) (f : Scenario.JSVal → Scenario.JSVal)
    (hx : x.isNullish = false) (hfx : (f x).isNullish = false) :
    ((Scenario.Option.some x).map f).valueOr d = f x
    ∧ (Scenario.Option.none.map f).valueOr d = d
    ∧ Scenario.Option.none.map f = Scenario.Option.none := by
  have hxn : x.isNullV = false := isNullV_eq_false_of_not_nullish x hx
  refine ⟨?_, rfl, rfl⟩
  have hsome : Scenario.Option.some x = ⟨x⟩ := by
    simp [Scenario.Option.some, Scenario.Option.new, Scenario.nullishCoalesce, hx]
  rw [hsome]
  have hfxn : (f x).isNullV = false := isNullV_eq_false_of_not_nullish _ hfx
  simp [Scenario.Option.map, Scenario.Option.isSome, Scenario.Option.cloneValue,
    hxn, Scenario.Option.some, Scenario.Option.new, Scenario.nullishCoalesce,
    hfx, Scenario.Option.valueOr, hfxn]

/-- C6, witness: apply the amended theorem at `x = 3`, `f` the identity,
`d = 9`. -/
theorem c6_witness :
    (Scenario.JSVal.vNum 3).isNullish = false
    ∧ ((fun v => v) (Scenario.JSVal.vNum 3)).isNullish = false
    ∧ ((Scenario.Option.some (Scenario.JSVal.vNum 3)).map (fun v => v)).valueOr
        (Scenario.JSVal.vNum 9) = (fun v => v) (Scenario.JSVal.vNum 3) :=
  ⟨by decide, by decide,
   (c6_map_valueOr (Scenario.JSVal.vNum 3) (Scenario.JSVal.vNum 9) (fun v => v)
      (by decide) (by decide)).1⟩

/-- C7: divergence of the code from the claimed round-trip at `x = 0`,
`f = const undefined`, `g = const "G"`: the mapped Success is classified
Failure (its payload is `undefined`), `mapFailure` then applies `g` to
the unset failure channel and `value()` returns `"G"` instead of
`f(x) = undefined`.  With a mapper whose result is defined the round
trip holds (`x = 2`, `f` the identity). -/
theorem c7_roundtrip_divergence :
    (((Scenario.Result.success (Scenario.JSVal.vNum 0)).map
          (fun _ => Scenario.JSVal.vUndefined)).mapFailure
        (fun _ => Scenario.JSVal.vStr "G")).value = Scenario.JSVal.vStr "G"
    ∧ Scenario.JSVal.vStr "G" ≠ Scenario.JSVal.vUndefined
    ∧ (((Scenario.Result.success (Scenario.JSVal.vNum 2)).map
          (fun v => v)).mapFailure
        (fun _ => Scenario.JSVal.vStr "G")).value = Scenario.JSVal.vNum 2 := by
  decide

/-- C8: `Option.fromError` swallows a thrown error into a None, sends a
nullish return value to None as well, and wraps any other return value
in a Some; concretely a throwing thunk observes as Absent and
`fromError(() => 42).valueOr(0) = 42`. -/
theorem c8_fromError_swallows (e : Scenario.JSErr) (v : Scenario.JSVal) :
    (Scenario.Option.fromError (Except.error e)).isNone = true
    ∧ (Scenario.Option.fromError (Except.ok v)).isNone = v.isNullish
    ∧ (v.isNullish = false →
        (Scenario.Option.fromError (Except.ok v)).valueOr
          (Scenario.JSVal.vNum 0) = v)
    ∧ (Scenario.Option.fromError (Except.ok (Scenario.JSVal.vNum 42))).valueOr
        (Scenario.JSVal.vNum 0) = Scenario.JSVal.vNum 42 := by
  refine ⟨rfl, ?_, ?_, by decide⟩
  · cases v <;> rfl
  · intro h
    cases v <;> simp_all [Scenario.Option.fromError, Scenario.Option.some,
      Scenario.Option.new, Scenario.nullishCoalesce, Scenario.Option.valueOr,
      Scenario.Option.isSome, Scenario.Option.cloneValue,
      Scenario.JSVal.isNullish, Scenario.JSVal.isNullV]

/-- C8, witness: apply the theorem at a thrown error and at the thunk
returning `7`. -/
theorem c8_witness :
    (Scenario.JSVal.vNum 7).isNullish = false
    ∧ (Scenario.Option.fromError (Except.ok (Scenario.JSVal.vNum 7))).valueOr
        (Scenario.JSVal.vNum 0) = Scenario.JSVal.vNum 7 :=
  ⟨by decide,
   (c8_fromError_swallows Scenario.JSErr.mk (Scenario.JSVal.vNum 7)).2.2.1
     (by decide)⟩

/-- C9: `Result.validate` (modelled from the spec, the implementation is
absent from src) leaves a Failure unchanged, leaves a Success whose
payload satisfies the predicate unchanged, and turns a Success whose
payload fails the predicate into `Failure(failureValueIfInvalid)`;
concretely `success(4).validate(v > 0, "NEG")` stays a Success and
`success(-4).validate(v > 0, "NEG")` is a Failure whose `value()` is
`"NEG"`. -/
theorem c9_validate_spec (r : Scenario.Result) (p : Scenario.JSVal → Bool)
    (fv : Scenario.JSVal) :
    (r.isFailure = true → r.validate p fv = r)
    ∧ (r.isSuccess = true → p r.successValue = true → r.validate p fv = r)
    ∧ (r.isSuccess = true → p r.successValue = false →
        r.validate p fv = Scenario.Result.failure fv)
    ∧ ((Scenario.Result.success (Scenario.JSVal.vNum 4)).validate
        Scenario.isPositiveNum (Scenario.JSVal.vStr "NEG")).isSuccess = true
    ∧ ((Scenario.Result.success (Scenario.JSVal.vNum (-4))).validate
        Scenario.isPositiveNum (Scenario.JSVal.vStr "NEG")).isFailure = true
    ∧ ((Scenario.Result.success (Scenario.JSVal.vNum (-4))).validate
        Scenario.isPositiveNum (Scenario.JSVal.vStr "NEG")).value
        = Scenario.JSVal.vStr "NEG" := by
  refine ⟨?_, ?_, ?_, by decide, by decide, by decide⟩
  · intro h
    simp [Scenario.Result.validate, h]
  · intro hs hp
    simp [Scenario.Result.validate, Scenario.Result.isFailure, hs, hp]
  · intro hs hp
    simp [Scenario.Result.validate, Scenario.Result.isFailure, hs, hp]

/-- C9, witness: apply the theorem on a concrete Failure, where validate
returns the receiver unchanged. -/
theorem c9_witness :
    (Scenario.Result.failure (Scenario.JSVal.vNum 0)).isFailure = true
    ∧ (Scenario.Result.failure (Scenario.JSVal.vNum 0)).validate
        Scenario.isPositiveNum (Scenario.JSVal.vNum 10)
        = Scenario.Result.failure (Scenario.JSVal.vNum 0) :=
  ⟨by decide,
   (c9_validate_spec (Scenario.Result.failure (Scenario.JSVal.vNum 0))
      Scenario.isPositiveNum (Scenario.JSVal.vNum 10)).1 (by decide)⟩

/-- C10: mapping a Present option with a mapper whose result is nullish
yields an Absent option — the constructor inside `Option.some` normalizes
the nullish result to absence. -/
theorem c10_map_nullish_to_none (o : Scenario.Option)
    (mapper : Scenario.JSVal → Scenario.JSVal)
    (ho : o.isSome = true)
    (hm : (mapper o.currentValue).isNullish = true) :
    (o.map mapper).isNone = true := by
  simp [Scenario.Option.map, ho, Scenario.Option.some, Scenario.Option.new,
    Scenario.Option.cloneValue, Scenario.nullishCoalesce, hm,
    Scenario.Option.isNone, Scenario.JSVal.isNullV]

/-- C10, witness: `Option.from(1).map(() => null).isNone()` is true. -/
theorem c10_witness :
    (Scenario.Option.fromVal (Scenario.JSVal.vNum 1)).isSome = true
    ∧ ((fun _ => Scenario.JSVal.vNull)
        ((Scenario.Option.fromVal (Scenario.JSVal.vNum 1)).currentValue)).isNullish
        = true
    ∧ ((Scenario.Option.fromVal (Scenario.JSVal.vNum 1)).map
        (fun _ => Scenario.JSVal.vNull)).isNone = true :=
  ⟨by decide, by decide,
   c10_map_nullish_to_none (Scenario.Option.fromVal (Scenario.JSVal.vNum 1))
     (fun _ => Scenario.JSVal.vNull) (by decide) (by decide)⟩
